import Mathlib

/-!
Shallow embedding of the four data collectors of the ops-team-reports
repository (scripts/data/gather_cog_emails.py, gather_gdocs.py,
gather_jira.py, gather_slack_bot.py).

Each collector's `main` is modelled as a pure function from
  * the positional argument list (without the program name),
  * the credential environment variables,
  * an upstream oracle (the vendor API responses, including per-call
    failures, given as `Except` values), and
  * a `Clock` capturing every value the run derives from the current time,
to a `RunOutcome`: the JSON object written to the output path, the process
exit code, and the log messages emitted (timestamps stripped, since the
log-line format is out of the model).  Vendor SDK internals (base64/MIME
decoding, HTTP plumbing) are folded into the oracles, exactly at the
boundary the code calls them; all decision logic, string formatting and
output construction is translated from the Python sources.
-/

namespace OpsReports

/-- Primitive JSON value: a string or null (used inside `date_range`). -/
inductive JPrim where
  | pnull : JPrim
  | pstr : String → JPrim
deriving DecidableEq, Repr

/-- JSON value as used by the collectors' output objects. -/
inductive JVal where
  | jnull : JVal
  | jstr : String → JVal
  | jint : Int → JVal
  | jobj : List (String × JPrim) → JVal
deriving DecidableEq, Repr

/-- A JSON object: ordered field list, as passed to `json.dump`. -/
abbrev JObj := List (String × JVal)

/-- Field lookup in a JSON object (first occurrence). -/
def JObj.get (o : JObj) (k : String) : Option JVal :=
  (o.find? (fun p => p.1 == k)).map (fun p => p.2)

/-- Outcome of one collector process: the JSON object written to the
resolved output path (`none` would mean the process exited without
writing), the exit code, and the log messages. -/
structure RunOutcome where
  outPath : String
  written : Option JObj
  exitCode : Nat
  logs : List String
deriving DecidableEq, Repr

/-- Everything a run derives from the current time: `utcnow` formatted as
`YYYY-MM-DD` (`today`), the same for seven days earlier (`weekAgo`), and
for the Chat collector the epoch bounds and ISO renderings of
`now - 7 days` and `now`. -/
structure Clock where
  today : String
  weekAgo : String
  startEpoch : Int
  endEpoch : Int
  startIso : String
  endIso : String
deriving DecidableEq, Repr

/-- Python truthiness of an optional string (`None` and `""` are falsy). -/
def pyTruthy : Option String → Bool
  | none => false
  | some s => s ≠ ""

/-- Render an optional string the way Python's f-string renders it. -/
def pyShow : Option String → String
  | none => "None"
  | some s => s

/-- `start_date` / `end_date` as stored in `date_range` (null when absent). -/
def optPrim : Option String → JPrim
  | none => .pnull
  | some s => .pstr s

/-- Positional argument with a default: `sys.argv[i] if len(sys.argv) > i else d`
(index 0 here is `sys.argv[1]`). -/
def argD (argv : List String) (i : Nat) (d : String) : String :=
  (argv.get? i).getD d

/-- Optional positional argument: `sys.argv[i] if len(sys.argv) > i else None`. -/
def argOpt (argv : List String) (i : Nat) : Option String :=
  argv.get? i

/-- Splitting a character list at a separator character, Python
`split(sep)` semantics: `""` splits to `[""]`, adjacent separators give
empty parts. -/
def pySplitAux (sep : Char) : List Char → List Char → List (List Char)
  | [], acc => [acc.reverse]
  | c :: rest, acc =>
      if c = sep then acc.reverse :: pySplitAux sep rest []
      else pySplitAux sep rest (c :: acc)

/-- Python `s.split(sep)` for a one-character separator — the only form
the collectors use. -/
def pySplit (s : String) (sep : Char) : List String :=
  (pySplitAux sep s.data []).map String.mk

/-- Python `s.strip()`: drop leading and trailing whitespace. -/
def pyStrip (s : String) : String :=
  String.mk (((s.data.dropWhile Char.isWhitespace).reverse.dropWhile Char.isWhitespace).reverse)

/-- Python `s.lower()` (character-wise case folding, which is what the
collectors rely on for their ASCII author names). -/
def pyLower (s : String) : String :=
  String.mk (s.data.map Char.toLower)

/-- Python `s.replace(a, b)` for one-character pattern and replacement —
the only form the collectors use. -/
def pyReplaceChar (s : String) (a b : Char) : String :=
  String.mk (s.data.map (fun c => if c = a then b else c))

/-- Python `s[:n]`. -/
def pyTake (s : String) (n : Nat) : String :=
  String.mk (s.data.take n)

/-- Comma-separated list parse used by the Chat collector:
`[x.strip() for x in s.split(',') if x.strip()]`. -/
def parseCsv (s : String) : List String :=
  ((pySplit s ',').map pyStrip).filter (fun x => x ≠ "")

/-- Case-insensitive substring container test (`needle in hay` on Python
strings, with `hay` already lowercased by the caller). -/
def strContains (hay needle : String) : Bool :=
  hay.toList.tails.any (fun t => needle.toList.isPrefixOf t)

/-! ## Mail collector (gather_cog_emails.py) -/

/-- Headers and body of one fetched email, as extracted by the per-item
processing (`Subject`/`From`/`Date` header lookup with defaults, body
decoding); the extraction itself is vendor plumbing folded into the
oracle. -/
structure EmailInfo where
  fromEmail : String
  subject : String
  dateStr : String
  body : String
deriving DecidableEq, Repr

/-- Gmail-side behaviour of one Mail run: whether `json.loads` accepts the
credential blob (with the decode-error text on failure), the
`messages().list` call on the built query, and the per-id full-message
fetch-and-extract (`Except.error` = the per-item exception). -/
structure MailUpstream where
  tokenParse : String → Except String Unit
  listMessages : String → Except String (List String)
  fetchEmail : String → Except String EmailInfo

/-- Gmail search query built from the optional date window. -/
def mailQuery (startDate endDate : Option String) : String :=
  let base := ["from:gemini-notes@google.com", "subject:\"Notes:\""]
  let withStart :=
    match startDate with
    | some d => base ++ ["after:" ++ pyReplaceChar d '-' '/']
    | none => base
  let withEnd :=
    match endDate with
    | some d => withStart ++ ["before:" ++ pyReplaceChar d '-' '/']
    | none => withStart
  String.intercalate " " withEnd

/-- The 80-dash separator line appended after each email body. -/
def dashes80 : String := String.mk (List.replicate 80 '-')

/-- Text block for one successfully fetched email. -/
def formatEmail (e : EmailInfo) : String :=
  "From: " ++ e.fromEmail ++ "\n" ++
  "Subject: " ++ e.subject ++ "\n" ++
  "Date: " ++ e.dateStr ++ "\n" ++
  "\n" ++ e.body ++ "\n" ++
  dashes80 ++ "\n"

/-- Per-item step of the Mail collector: the formatted block when the
full-message fetch succeeds, `none` (item skipped) when it fails. -/
def mailItemBlock (up : MailUpstream) (i : String) : Option String :=
  match up.fetchEmail i with
  | .ok e => some (formatEmail e)
  | .error _ => none

/-- Text blocks actually accumulated: ids whose per-item fetch succeeded,
in listing order; a failed fetch skips the item. -/
def mailParts (up : MailUpstream) (ids : List String) : List String :=
  ids.filterMap (mailItemBlock up)

/-- Warning log lines for the ids whose per-item fetch failed. -/
def mailItemLogs (up : MailUpstream) (ids : List String) : List String :=
  ids.filterMap (fun i =>
    match up.fetchEmail i with
    | .ok _ => none
    | .error e => some ("  WARNING: Could not fetch email " ++ i ++ ": " ++ e))

def mailMissingOut : JObj :=
  [("raw_text", .jstr "No CoG emails - missing credentials"),
   ("source", .jstr "cog_emails"),
   ("error", .jstr "missing_credentials")]

def mailInvalidOut : JObj :=
  [("raw_text", .jstr "No CoG emails - invalid credentials"),
   ("source", .jstr "cog_emails"),
   ("error", .jstr "invalid_credentials")]

def mailApiOut (msg : String) : JObj :=
  [("raw_text", .jstr "No CoG emails - API error"),
   ("source", .jstr "cog_emails"),
   ("error", .jstr "api_failure"),
   ("error_message", .jstr msg)]

/-- Success-path output object of the Mail collector.  Note that
`email_count` is `len(messages)` — the number of ids returned by the
listing call — computed before per-item processing. -/
def mailSuccessOut (up : MailUpstream) (ids : List String)
    (startDate endDate : Option String) : JObj :=
  [("raw_text", .jstr (String.intercalate "\n" (mailParts up ids))),
   ("source", .jstr "cog_emails"),
   ("email_count", .jint ids.length),
   ("date_range", .jobj [("start", optPrim startDate), ("end", optPrim endDate)])]

/-- `main` of gather_cog_emails.py. -/
def mailMain (argv : List String) (googleToken : Option String)
    (up : MailUpstream) (_clk : Clock) : RunOutcome :=
  let startDate := argOpt argv 0
  let endDate := argOpt argv 1
  let outputFile := argD argv 2 "/tmp/cog_emails.json"
  let logs0 := ["Starting CoG emails gathering from Gmail...",
                "Date range: " ++ pyShow startDate ++ " to " ++ pyShow endDate]
  match googleToken with
  | none =>
      ⟨outputFile, some mailMissingOut, 1,
       logs0 ++ ["ERROR: GOOGLE_TOKEN must be set"]⟩
  | some tok =>
      match up.tokenParse tok with
      | .error e =>
          ⟨outputFile, some mailInvalidOut, 1,
           logs0 ++ ["ERROR: Invalid Google token JSON: " ++ e]⟩
      | .ok _ =>
          let q := mailQuery startDate endDate
          let logs1 := logs0 ++ ["Executing Gmail query: " ++ q]
          match up.listMessages q with
          | .error e =>
              ⟨outputFile, some (mailApiOut e), 1,
               logs1 ++ ["ERROR: Failed to fetch CoG emails: " ++ e]⟩
          | .ok ids =>
              ⟨outputFile, some (mailSuccessOut up ids startDate endDate), 0,
               logs1 ++ ["Found " ++ toString ids.length ++ " CoG emails"]
                     ++ mailItemLogs up ids
                     ++ ["✅ CoG emails data saved to " ++ outputFile]⟩

/-! ## Documents collector (gather_gdocs.py) -/

/-- Metadata of one listed document, as delivered by `files().list`
(`none` = the key is absent from the response dict). `owners` holds the
`displayName` of each owner entry (`none` = entry without the key);
`lastModifyingUser` is its `displayName` when the response has one. -/
structure DocMeta where
  docId : String
  name : Option String
  webViewLink : Option String
  createdTime : Option String
  modifiedTime : Option String
  owners : List (Option String)
  lastModifyingUser : Option String
deriving DecidableEq, Repr

/-- Drive-side behaviour of one Documents run: the `json.loads` of the
service-account blob, the `files().list` call on the built query, and the
per-document content fetch (`documents().get` plus text extraction; the
`.ok` value is the concatenated `content_text`). -/
structure GdocsUpstream where
  credsParse : String → Except String Unit
  listFiles : String → Except String (List DocMeta)
  docContent : String → Except String String

/-- Drive query built from the search term and optional date window. -/
def gdocsQuery (searchQuery : String) (startDate endDate : Option String) : String :=
  let base := ["mimeType='application/vnd.google-apps.document'",
               "fullText contains '" ++ searchQuery ++ "'",
               "trashed=false"]
  let withStart :=
    match startDate with
    | some d => base ++ ["createdTime >= '" ++ d ++ "T00:00:00'"]
    | none => base
  let withEnd :=
    match endDate with
    | some d => withStart ++ ["createdTime <= '" ++ d ++ "T23:59:59'"]
    | none => withStart
  String.intercalate " and " withEnd

/-- Resolved owner display name: `owners[0].get('displayName','Unknown')
if owners else 'Unknown'`. -/
def gdocsOwner (doc : DocMeta) : String :=
  match doc.owners.head? with
  | some d => d.getD "Unknown"
  | none => "Unknown"

/-- Metadata header block of one document (always emitted, even when the
content-preview fetch fails). -/
def gdocsBase (doc : DocMeta) : String :=
  let name := doc.name.getD "Untitled"
  let link := doc.webViewLink.getD ""
  let created := doc.createdTime.getD ""
  let modified := doc.modifiedTime.getD ""
  let ownerName := gdocsOwner doc
  let lastModifier := doc.lastModifyingUser.getD ownerName
  "[" ++ name ++ "](" ++ link ++ ")\n" ++
  "  Created: " ++ created ++ "\n" ++
  "  Last Modified: " ++ modified ++ "\n" ++
  "  Owner: " ++ ownerName ++ "\n" ++
  "  Last Modified By: " ++ lastModifier ++ "\n"

/-- Text block for one document: the header block, plus a preview line
when the content fetch succeeds with non-empty text; on a fetch failure
the item is kept with the preview omitted. -/
def formatDoc (up : GdocsUpstream) (doc : DocMeta) : String :=
  match up.docContent doc.docId with
  | .ok c =>
      if c ≠ "" then
        gdocsBase doc ++ "  Preview: " ++ (pyReplaceChar (pyTake (pyStrip c) 200) '\n' ' ') ++ "...\n"
      else gdocsBase doc
  | .error _ => gdocsBase doc

/-- Text blocks accumulated by the Documents collector: one per listed
document, in listing order — no document is ever skipped. -/
def gdocsParts (up : GdocsUpstream) (docs : List DocMeta) : List String :=
  docs.map (formatDoc up)

/-- Warning log lines for documents whose content fetch failed. -/
def gdocsItemLogs (up : GdocsUpstream) (docs : List DocMeta) : List String :=
  docs.filterMap (fun doc =>
    match up.docContent doc.docId with
    | .ok _ => none
    | .error e => some ("  WARNING: Could not fetch content for " ++ doc.docId ++ ": " ++ e))

def gdocsMissingOut : JObj :=
  [("raw_text", .jstr "No Google Docs data - missing credentials"),
   ("source", .jstr "gdocs"),
   ("error", .jstr "missing_credentials")]

def gdocsInvalidOut : JObj :=
  [("raw_text", .jstr "No Google Docs data - invalid credentials"),
   ("source", .jstr "gdocs"),
   ("error", .jstr "invalid_credentials")]

def gdocsApiOut (msg : String) : JObj :=
  [("raw_text", .jstr "No Google Docs data - API error"),
   ("source", .jstr "gdocs"),
   ("error", .jstr "api_failure"),
   ("error_message", .jstr msg)]

/-- Success-path output object of the Documents collector. -/
def gdocsSuccessOut (up : GdocsUpstream) (docs : List DocMeta)
    (searchQuery : String) (startDate endDate : Option String) : JObj :=
  [("raw_text", .jstr (String.intercalate "\n" (gdocsParts up docs))),
   ("source", .jstr "gdocs"),
   ("doc_count", .jint docs.length),
   ("search_query", .jstr searchQuery),
   ("date_range", .jobj [("start", optPrim startDate), ("end", optPrim endDate)])]

/-- `main` of gather_gdocs.py. -/
def gdocsMain (argv : List String) (gdocsCreds : Option String)
    (up : GdocsUpstream) (_clk : Clock) : RunOutcome :=
  let startDate := argOpt argv 0
  let endDate := argOpt argv 1
  let outputFile := argD argv 2 "/tmp/gdocs.json"
  let searchQuery := argD argv 4 "cog"
  let logs0 := ["Starting Google Docs data gathering...",
                "Date range: " ++ pyShow startDate ++ " to " ++ pyShow endDate,
                "Search query: " ++ searchQuery]
  match gdocsCreds with
  | none =>
      ⟨outputFile, some gdocsMissingOut, 1,
       logs0 ++ ["ERROR: GDOCS_SERVICE_ACCOUNT must be set"]⟩
  | some creds =>
      match up.credsParse creds with
      | .error e =>
          ⟨outputFile, some gdocsInvalidOut, 1,
           logs0 ++ ["ERROR: Invalid service account credentials JSON: " ++ e]⟩
      | .ok _ =>
          let q := gdocsQuery searchQuery startDate endDate
          let logs1 := logs0 ++ ["Executing query: " ++ q]
          match up.listFiles q with
          | .error e =>
              ⟨outputFile, some (gdocsApiOut e), 1,
               logs1 ++ ["ERROR: Failed to fetch Google Docs data: " ++ e]⟩
          | .ok docs =>
              ⟨outputFile,
               some (gdocsSuccessOut up docs searchQuery startDate endDate), 0,
               logs1 ++ ["Found " ++ toString docs.length ++ " documents"]
                     ++ gdocsItemLogs up docs
                     ++ ["✅ Google Docs data saved to " ++ outputFile]⟩

/-! ## IssueTracker collector (gather_jira.py) -/

/-- The fields of one issue consumed by the formatting step (`none` =
Python `None`). -/
structure IssueInfo where
  key : String
  summary : String
  statusName : String
  assignee : Option String
  priority : Option String
  created : String
  updated : String
  resolutiondate : Option String
  description : Option String
deriving DecidableEq, Repr

/-- JIRA-side behaviour of one run: connecting with the base URL and token
and running `search_issues` on the built JQL; any exception in that span is
the `Except.error` text. -/
structure JiraUpstream where
  searchIssues : String → String → String → Except String (List IssueInfo)

/-- Team-member filter clause: empty unless the members argument has at
least one non-blank comma-separated entry. -/
def jiraTeamFilter (teamMembers : String) : String :=
  if teamMembers ≠ "" then
    let members := parseCsv teamMembers
    if members ≠ [] then
      " AND (" ++
        String.intercalate " OR "
          (members.map (fun m => "assignee = \"" ++ m ++ "\" OR reporter = \"" ++ m ++ "\"")) ++
      ")"
    else ""
  else ""

/-- JQL query: any activity (created/updated/resolved) inside the window,
conjoined with the project and team filter, newest-updated first. -/
def jiraJql (project startDate endDate teamFilter : String) : String :=
  "project = " ++ project ++ " AND " ++
  "((created >= '" ++ startDate ++ "' AND created <= '" ++ endDate ++ "') OR " ++
  "(updated >= '" ++ startDate ++ "' AND updated <= '" ++ endDate ++ "') OR " ++
  "(resolutiondate >= '" ++ startDate ++ "' AND resolutiondate <= '" ++ endDate ++ "'))" ++
  teamFilter ++ " ORDER BY updated DESC"

/-- Text block for one issue. -/
def formatIssue (i : IssueInfo) : String :=
  let description := match i.description with
    | some d => if d ≠ "" then d else "No description"
    | none => "No description"
  "[" ++ i.key ++ "](https://issues.redhat.com/browse/" ++ i.key ++ ") - " ++ i.summary ++ "\n" ++
  "  Status: " ++ i.statusName ++ "\n" ++
  "  Assignee: " ++ i.assignee.getD "Unassigned" ++ "\n" ++
  "  Priority: " ++ i.priority.getD "None" ++ "\n" ++
  "  Created: " ++ i.created ++ "\n" ++
  "  Updated: " ++ i.updated ++ "\n" ++
  (if pyTruthy i.resolutiondate then "  Resolved: " ++ i.resolutiondate.getD "" ++ "\n" else "") ++
  "  Description: " ++ pyTake description 200 ++ "...\n"

def jiraMissingOut : JObj :=
  [("raw_text", .jstr "No JIRA data - missing credentials"),
   ("source", .jstr "jira"),
   ("error", .jstr "missing_credentials")]

def jiraApiOut (msg : String) : JObj :=
  [("raw_text", .jstr "No JIRA data - API error"),
   ("source", .jstr "jira"),
   ("error", .jstr "api_failure"),
   ("error_message", .jstr msg)]

/-- Success-path output object of the IssueTracker collector. -/
def jiraSuccessOut (issues : List IssueInfo) (project startDate endDate : String) : JObj :=
  [("raw_text", .jstr (String.intercalate "\n" (issues.map formatIssue))),
   ("source", .jstr "jira"),
   ("issue_count", .jint issues.length),
   ("project", .jstr project),
   ("date_range", .jobj [("start", .pstr startDate), ("end", .pstr endDate)])]

/-- `main` of gather_jira.py.  The date window defaults to the last seven
days of the clock; the project and team-members selectors are positional
arguments 5 and 6. -/
def jiraMain (argv : List String) (jiraToken : Option String)
    (jiraBaseUrl : Option String) (up : JiraUpstream) (clk : Clock) : RunOutcome :=
  let startDate := argD argv 0 clk.weekAgo
  let endDate := argD argv 1 clk.today
  let outputFile := argD argv 2 "/tmp/jira.json"
  let project := argD argv 4 "RHDPOPS"
  let teamMembers := argD argv 5 ""
  let logs0 := ["Starting JIRA data gathering...",
                "Project: " ++ project,
                "Date range: " ++ startDate ++ " to " ++ endDate]
  match jiraToken with
  | none =>
      ⟨outputFile, some jiraMissingOut, 1,
       logs0 ++ ["ERROR: JIRA_API_TOKEN must be set"]⟩
  | some tok =>
      let baseUrl := jiraBaseUrl.getD "https://issues.redhat.com"
      let jql := jiraJql project startDate endDate (jiraTeamFilter teamMembers)
      let logs1 := logs0 ++ ["Executing JQL: " ++ jql]
      match up.searchIssues baseUrl tok jql with
      | .error e =>
          ⟨outputFile, some (jiraApiOut e), 1,
           logs1 ++ ["ERROR: Failed to fetch JIRA data: " ++ e]⟩
      | .ok issues =>
          ⟨outputFile, some (jiraSuccessOut issues project startDate endDate), 0,
           logs1 ++ ["Found " ++ toString issues.length ++ " issues",
                     "âœ… JIRA data saved to " ++ outputFile]⟩

/-! ## Chat collector (gather_slack_bot.py) -/

/-- Resolved profile fields of a message author
(`profile.get('display_name','')` / `profile.get('real_name','')`). -/
structure SlackProfile where
  displayName : String
  realName : String
deriving DecidableEq, Repr

/-- One message from `conversations_history`.  `tsFormatted` stands for
`datetime.fromtimestamp(float(msg['ts'])).strftime('%Y-%m-%d %H:%M')` — a
pure rendering of the upstream timestamp. -/
structure SlackMsg where
  subtype : Option String
  user : Option String
  tsFormatted : String
  text : String
  replyCount : Nat
deriving DecidableEq, Repr

/-- A failure of the top-level Slack span: a `SlackApiError` or any other
exception. -/
inductive SlackFailure where
  | apiError (msg : String)
  | otherError (msg : String)
deriving DecidableEq, Repr

/-- Slack-side behaviour of one run: `auth_test` (its failure mode selects
the outer handler), per-channel `conversations_info` (name lookup;
`SlackApiError` falls back to the channel id), per-channel
`conversations_history` with the epoch bounds (`SlackApiError` skips the
channel) and per-author `users_info` (`SlackApiError` skips the message). -/
structure SlackUpstream where
  authTest : Except SlackFailure String
  channelInfo : String → Except String String
  history : String → Int → Int → Except String (List SlackMsg)
  userInfo : String → Except String SlackProfile

/-- Channel-id list parsed from positional argument 1. -/
def slackChannels (channelIds : String) : List String :=
  parseCsv channelIds

/-- Author allow-list parsed from positional argument 2 (entries
lower-cased). -/
def slackUserFilter (githubUsers : String) : List String :=
  (parseCsv githubUsers).map pyLower

/-- Does the resolved profile match the allow-list?  True when some entry
is a substring of the lower-cased display name or real name. -/
def userMatch (fl : List String) (p : SlackProfile) : Bool :=
  fl.any (fun g => strContains (pyLower p.displayName) g || strContains (pyLower p.realName) g)

/-- Formatted text block of one accumulated message. -/
def slackFormatMsg (channelName : String) (p : SlackProfile) (msg : SlackMsg) : String :=
  let author := if p.displayName ≠ "" then p.displayName else p.realName
  let threadInfo :=
    if msg.replyCount > 0 then " [" ++ toString msg.replyCount ++ " replies]" else ""
  "#" ++ channelName ++ " - " ++ author ++ " (" ++ msg.tsFormatted ++ ")" ++
  threadInfo ++ ":\n" ++ msg.text ++ "\n"

/-- Per-message pipeline: subtype check, author-id check, profile lookup,
allow-list check, format.  `none` = the message is skipped. -/
def slackMsgBlock (up : SlackUpstream) (fl : List String) (channelName : String)
    (msg : SlackMsg) : Option String :=
  if msg.subtype = some "bot_message" ∨ msg.subtype = some "channel_join" ∨
     msg.subtype = some "channel_leave" then none
  else
    match msg.user with
    | none => none
    | some uid =>
        if uid = "" then none
        else
          match up.userInfo uid with
          | .error _ => none
          | .ok prof =>
              if fl ≠ [] ∧ ¬ userMatch fl prof then none
              else some (slackFormatMsg channelName prof msg)

/-- Resolved channel name: the `conversations_info` name, falling back to
the channel id on a `SlackApiError`. -/
def slackChannelName (up : SlackUpstream) (channelId : String) : String :=
  match up.channelInfo channelId with
  | .ok n => n
  | .error _ => channelId

/-- Blocks contributed by one channel: none when the history fetch fails,
otherwise the per-message pipeline over the returned messages. -/
def slackChannelBlocks (up : SlackUpstream) (fl : List String) (clk : Clock)
    (channelId : String) : List String :=
  match up.history channelId clk.startEpoch clk.endEpoch with
  | .error _ => []
  | .ok msgs => msgs.filterMap (slackMsgBlock up fl (slackChannelName up channelId))

/-- All accumulated message blocks, channels in argument order. -/
def slackAllBlocks (up : SlackUpstream) (fl : List String) (clk : Clock)
    (channels : List String) : List String :=
  channels.flatMap (slackChannelBlocks up fl clk)

def slackMissingOut : JObj :=
  [("raw_text", .jstr "No Slack data - credentials not configured"),
   ("source", .jstr "slack"),
   ("error", .jstr "missing_credentials")]

def slackNoChannelsOut : JObj :=
  [("raw_text", .jstr "No Slack data - no channels configured"),
   ("source", .jstr "slack"),
   ("channel_count", .jint 0)]

def slackApiOut (msg : String) : JObj :=
  [("raw_text", .jstr "No Slack data - API error"),
   ("source", .jstr "slack"),
   ("error", .jstr "api_failure"),
   ("error_message", .jstr msg)]

def slackUnexpectedOut (msg : String) : JObj :=
  [("raw_text", .jstr "No Slack data - unexpected error"),
   ("source", .jstr "slack"),
   ("error", .jstr "unexpected_error"),
   ("error_message", .jstr msg)]

/-- Success-path output object of the Chat collector.  The date range is
derived from the clock (last seven days from `datetime.now()`), never from
the arguments. -/
def slackSuccessOut (up : SlackUpstream) (fl : List String) (clk : Clock)
    (channels : List String) : JObj :=
  let allMessages := slackAllBlocks up fl clk channels
  [("raw_text", .jstr (if allMessages ≠ [] then String.intercalate "\n" allMessages
                       else "No relevant Slack messages found")),
   ("source", .jstr "slack"),
   ("channel_count", .jint channels.length),
   ("message_count", .jint allMessages.length),
   ("date_range", .jobj [("start", .pstr clk.startIso), ("end", .pstr clk.endIso)])]

/-- `main` of gather_slack_bot.py.  Positional argument 1 is the
channel-id list and argument 2 the author filter; there are no date
arguments, and a missing bot token exits with status 0. -/
def slackMain (argv : List String) (slackBotToken : Option String)
    (up : SlackUpstream) (clk : Clock) : RunOutcome :=
  let channelIds := argD argv 0 ""
  let githubUsers := argD argv 1 ""
  let outputFile := argD argv 2 "/tmp/slack.json"
  let logs0 := ["Starting Slack data gathering with Bot Token...",
                "Channels: " ++ channelIds,
                "Filter by users: " ++ githubUsers]
  match slackBotToken with
  | none =>
      ⟨outputFile, some slackMissingOut, 0,
       logs0 ++ ["WARNING: SLACK_BOT_TOKEN not configured, skipping Slack data"]⟩
  | some _ =>
      match up.authTest with
      | .error (.apiError e) =>
          ⟨outputFile, some (slackApiOut e), 1,
           logs0 ++ ["ERROR: Slack API error: " ++ e]⟩
      | .error (.otherError e) =>
          ⟨outputFile, some (slackUnexpectedOut e), 1,
           logs0 ++ ["ERROR: Failed to fetch Slack data: " ++ e]⟩
      | .ok botUser =>
          let logs1 := logs0 ++ ["✅ Authenticated as bot: " ++ botUser]
          let channels := slackChannels channelIds
          if channels = [] then
            ⟨outputFile, some slackNoChannelsOut, 0,
             logs1 ++ ["No channels specified"]⟩
          else
            let fl := slackUserFilter githubUsers
            let allMessages := slackAllBlocks up fl clk channels
            ⟨outputFile, some (slackSuccessOut up fl clk channels), 0,
             logs1 ++ ["✅ Slack data saved: " ++ toString allMessages.length ++
                       " messages from " ++ toString channels.length ++ " channels"]⟩

/-! ## Concrete fixtures used by witnesses and counterexamples -/

/-- A fixed invocation clock. -/
def testClock : Clock :=
  ⟨"2030-06-08", "2030-06-01", 1000, 2000, "2030-06-01T12:00:00", "2030-06-08T12:00:00"⟩

/-- A second, later invocation clock. -/
def testClock2 : Clock :=
  ⟨"2030-07-08", "2030-07-01", 3000, 4000, "2030-07-01T12:00:00", "2030-07-08T12:00:00"⟩

/-- Mail upstream whose credential blob fails `json.loads`. -/
def mailUpBadToken : MailUpstream :=
  ⟨fun _ => .error "Expecting value", fun _ => .ok [], fun _ => .ok ⟨"", "", "", ""⟩⟩

/-- Documents upstream whose credential blob fails `json.loads`. -/
def gdocsUpBadCreds : GdocsUpstream :=
  ⟨fun _ => .error "Expecting value", fun _ => .ok [], fun _ => .ok ""⟩

/-! ## Helper lemmas -/

/-- A `filterMap` whose function hits on every element preserves length. -/
theorem length_filterMap_of_isSome {α β : Type} (f : α → Option β) :
    ∀ l : List α, (∀ a ∈ l, (f a).isSome) → (l.filterMap f).length = l.length := by
  intro l h
  induction l with
  | nil => rfl
  | cons a t ih =>
      cases ho : f a with
      | none =>
          have := h a (List.mem_cons_self a t)
          rw [ho] at this
          simp at this
      | some b =>
          rw [List.filterMap_cons, ho]
          simp only [List.length_cons]
          rw [ih (fun x hx => h x (List.mem_cons_of_mem a hx))]

/-! ## Claims -/

/-- C1: for every collector (Mail, Documents, IssueTracker, Chat) and every
invocation — any arguments, any credential environment, any upstream
behaviour including every fatal-error path — the run writes a JSON
`CollectionResult` object to the output path before exiting: the `written`
component of the outcome is populated on every code path. -/
theorem claim_C1 :
    (∀ argv tok up clk, ((mailMain argv tok up clk).written).isSome) ∧
    (∀ argv creds up clk, ((gdocsMain argv creds up clk).written).isSome) ∧
    (∀ argv tok base up clk, ((jiraMain argv tok base up clk).written).isSome) ∧
    (∀ argv tok up clk, ((slackMain argv tok up clk).written).isSome) := by
  refine ⟨?_, ?_, ?_, ?_⟩
  · intro argv tok up clk
    cases tok with
    | none => simp [mailMain]
    | some t =>
        simp only [mailMain]
        cases up.tokenParse t with
        | error e => simp
        | ok u =>
            cases up.listMessages (mailQuery (argOpt argv 0) (argOpt argv 1)) <;> simp
  · intro argv creds up clk
    cases creds with
    | none => simp [gdocsMain]
    | some c =>
        simp only [gdocsMain]
        cases up.credsParse c with
        | error e => simp
        | ok u =>
            cases up.listFiles (gdocsQuery (argD argv 4 "cog") (argOpt argv 0) (argOpt argv 1))
              <;> simp
  · intro argv tok base up clk
    cases tok with
    | none => simp [jiraMain]
    | some t =>
        simp only [jiraMain]
        cases up.searchIssues (base.getD "https://issues.redhat.com") t
          (jiraJql (argD argv 4 "RHDPOPS") (argD argv 0 clk.weekAgo) (argD argv 1 clk.today)
            (jiraTeamFilter (argD argv 5 ""))) <;> simp
  · intro argv tok up clk
    cases tok with
    | none => simp [slackMain]
    | some t =>
        simp only [slackMain]
        cases up.authTest with
        | error f => cases f <;> simp
        | ok b =>
            by_cases hc : slackChannels (argD argv 0 "") = [] <;> simp [hc]

/-- C2: for each of the four collectors, when the required credential
environment variable is absent the run still writes a valid JSON output
whose `error` field is "missing_credentials" and whose `raw_text` is the
fixed placeholder string, logs the condition, and exits with status 0 for
Chat and status 1 for Mail, Documents, and IssueTracker. -/
theorem claim_C2 :
    (∀ argv up clk,
        (mailMain argv none up clk).written = some mailMissingOut ∧
        JObj.get mailMissingOut "error" = some (.jstr "missing_credentials") ∧
        JObj.get mailMissingOut "raw_text" = some (.jstr "No CoG emails - missing credentials") ∧
        (mailMain argv none up clk).exitCode = 1 ∧
        "ERROR: GOOGLE_TOKEN must be set" ∈ (mailMain argv none up clk).logs) ∧
    (∀ argv up clk,
        (gdocsMain argv none up clk).written = some gdocsMissingOut ∧
        JObj.get gdocsMissingOut "error" = some (.jstr "missing_credentials") ∧
        JObj.get gdocsMissingOut "raw_text" = some (.jstr "No Google Docs data - missing credentials") ∧
        (gdocsMain argv none up clk).exitCode = 1 ∧
        "ERROR: GDOCS_SERVICE_ACCOUNT must be set" ∈ (gdocsMain argv none up clk).logs) ∧
    (∀ argv base up clk,
        (jiraMain argv none base up clk).written = some jiraMissingOut ∧
        JObj.get jiraMissingOut "error" = some (.jstr "missing_credentials") ∧
        JObj.get jiraMissingOut "raw_text" = some (.jstr "No JIRA data - missing credentials") ∧
        (jiraMain argv none base up clk).exitCode = 1 ∧
        "ERROR: JIRA_API_TOKEN must be set" ∈ (jiraMain argv none base up clk).logs) ∧
    (∀ argv up clk,
        (slackMain argv none up clk).written = some slackMissingOut ∧
        JObj.get slackMissingOut "error" = some (.jstr "missing_credentials") ∧
        JObj.get slackMissingOut "raw_text" = some (.jstr "No Slack data - credentials not configured") ∧
        (slackMain argv none up clk).exitCode = 0 ∧
        "WARNING: SLACK_BOT_TOKEN not configured, skipping Slack data" ∈
          (slackMain argv none up clk).logs) := by
  refine ⟨?_, ?_, ?_, ?_⟩ <;> intros <;>
    refine ⟨rfl, rfl, rfl, rfl, ?_⟩ <;> simp [mailMain, gdocsMain, jiraMain, slackMain]

/-- C3: a credential bundle that is present in the environment but cannot
be parsed produces a written output whose `error` field is
"invalid_credentials" and exit code 1.  Mail and Documents are the two
collectors whose credential bundle has a decode step (`json.loads`); the
Chat bot token and the IssueTracker API token are opaque strings the code
never parses, so the failure condition cannot arise for them. -/
theorem claim_C3 :
    (∀ argv t e up clk, up.tokenParse t = .error e →
        (mailMain argv (some t) up clk).written = some mailInvalidOut ∧
        JObj.get mailInvalidOut "error" = some (.jstr "invalid_credentials") ∧
        (mailMain argv (some t) up clk).exitCode = 1) ∧
    (∀ argv c e up clk, up.credsParse c = .error e →
        (gdocsMain argv (some c) up clk).written = some gdocsInvalidOut ∧
        JObj.get gdocsInvalidOut "error" = some (.jstr "invalid_credentials") ∧
        (gdocsMain argv (some c) up clk).exitCode = 1) := by
  constructor
  · intro argv t e up clk h
    refine ⟨?_, rfl, ?_⟩ <;> simp [mailMain, h]
  · intro argv c e up clk h
    refine ⟨?_, rfl, ?_⟩ <;> simp [gdocsMain, h]

/-- Witness for C3: Mail and Documents runs with an unparseable credential
blob write the invalid-credentials output and exit 1. -/
theorem claim_C3_witness :
    ((mailMain [] (some "not json") mailUpBadToken testClock).written = some mailInvalidOut ∧
     JObj.get mailInvalidOut "error" = some (.jstr "invalid_credentials") ∧
     (mailMain [] (some "not json") mailUpBadToken testClock).exitCode = 1) ∧
    ((gdocsMain [] (some "not json") gdocsUpBadCreds testClock).written = some gdocsInvalidOut ∧
     JObj.get gdocsInvalidOut "error" = some (.jstr "invalid_credentials") ∧
     (gdocsMain [] (some "not json") gdocsUpBadCreds testClock).exitCode = 1) :=
  ⟨claim_C3.1 [] "not json" "Expecting value" mailUpBadToken testClock rfl,
   claim_C3.2 [] "not json" "Expecting value" gdocsUpBadCreds testClock rfl⟩

/-- Mail upstream listing one message id whose per-item fetch fails. -/
def mailUpOneDropped : MailUpstream :=
  ⟨fun _ => .ok (), fun _ => .ok ["m1"], fun _ => .error "HttpError 404"⟩

/-- Counterexample to C4 as stated: a Mail run whose listing returns one
message id and whose per-item fetch fails for it writes `email_count = 1`
while zero text blocks were joined into `raw_text` (which is empty) — the
skipped item is still counted. -/
theorem counterexample_C4 :
    (mailMain [] (some "T") mailUpOneDropped testClock).written =
      some (mailSuccessOut mailUpOneDropped ["m1"] none none) ∧
    JObj.get (mailSuccessOut mailUpOneDropped ["m1"] none none) "email_count" =
      some (.jint 1) ∧
    mailParts mailUpOneDropped ["m1"] = [] ∧
    JObj.get (mailSuccessOut mailUpOneDropped ["m1"] none none) "raw_text" =
      some (.jstr "") :=
  ⟨rfl, rfl, rfl, rfl⟩

/-- C4 (amended): for Chat, Documents, and IssueTracker the item-count
field written on the success path equals the number of text blocks joined
into `raw_text`; for Mail, `email_count` equals the number of listed
message ids — computed before per-item processing — which exceeds the
number of joined blocks whenever a per-item fetch fails, so skipped Mail
items are still counted. -/
theorem claim_C4 :
    (∀ up fl clk channels,
        JObj.get (slackSuccessOut up fl clk channels) "message_count" =
          some (.jint (slackAllBlocks up fl clk channels).length)) ∧
    (∀ up docs sq s e,
        JObj.get (gdocsSuccessOut up docs sq s e) "doc_count" =
          some (.jint (gdocsParts up docs).length)) ∧
    (∀ issues p s e,
        JObj.get (jiraSuccessOut issues p s e) "issue_count" =
          some (.jint (issues.map formatIssue).length)) ∧
    (∀ up ids s e,
        JObj.get (mailSuccessOut up ids s e) "email_count" = some (.jint ids.length) ∧
        JObj.get (mailSuccessOut up ids s e) "raw_text" =
          some (.jstr (String.intercalate "\n" (mailParts up ids)))) := by
  refine ⟨?_, ?_, ?_, ?_⟩
  · intro up fl clk channels
    rfl
  · intro up docs sq s e
    have h : (gdocsParts up docs).length = docs.length := by
      rw [gdocsParts, List.length_map]
    rw [h]
    rfl
  · intro issues p s e
    have h : (issues.map formatIssue).length = issues.length := List.length_map _ _
    rw [h]
    rfl
  · intro up ids s e
    exact ⟨rfl, rfl⟩

/-- Mail upstream listing two ids, the first of which fails to fetch. -/
def mailUpTwoOneBad : MailUpstream :=
  ⟨fun _ => .ok (), fun _ => .ok ["m1", "m2"],
   fun i => if i = "m1" then .error "HttpError 404"
            else .ok ⟨"gemini-notes@google.com", "Notes: weekly", "Mon", "body text"⟩⟩

/-- Counterexample to C5 as stated: in a Mail run where the per-item fetch
fails for exactly one of two listed messages, the affected item is dropped
from `raw_text` entirely (one block remains), not kept with the
unavailable enrichment omitted as the claim says; the count still reads 2. -/
theorem counterexample_C5 :
    (mailParts mailUpTwoOneBad ["m1", "m2"]).length = 1 ∧
    mailParts mailUpTwoOneBad ["m1", "m2"] =
      [formatEmail ⟨"gemini-notes@google.com", "Notes: weekly", "Mon", "body text"⟩] ∧
    (mailMain [] (some "T") mailUpTwoOneBad testClock).written =
      some (mailSuccessOut mailUpTwoOneBad ["m1", "m2"] none none) ∧
    JObj.get (mailSuccessOut mailUpTwoOneBad ["m1", "m2"] none none) "email_count" =
      some (.jint 2) :=
  ⟨rfl, rfl, rfl, rfl⟩

/-- C5 (amended): when the per-item enrichment fetch fails for exactly one
of N items and succeeds for the rest, no top-level `error` appears and the
run does not crash; the Chat collector skips the affected message
(N−1 blocks), the Documents collector keeps it with the preview omitted
(N blocks), and the Mail collector drops the affected item from `raw_text`
(N−1 blocks) while still counting it. -/
theorem claim_C5 :
    (∀ up fl cn pre post (bad : SlackMsg) uid err,
        (∀ m ∈ pre, (slackMsgBlock up fl cn m).isSome) →
        (∀ m ∈ post, (slackMsgBlock up fl cn m).isSome) →
        ¬ (bad.subtype = some "bot_message" ∨ bad.subtype = some "channel_join" ∨
           bad.subtype = some "channel_leave") →
        bad.user = some uid → uid ≠ "" → up.userInfo uid = .error err →
        ((pre ++ bad :: post).filterMap (slackMsgBlock up fl cn)).length =
          pre.length + post.length) ∧
    (∀ up docs, (gdocsParts up docs).length = docs.length) ∧
    (∀ (up : GdocsUpstream) doc err,
        up.docContent doc.docId = .error err → formatDoc up doc = gdocsBase doc) ∧
    (∀ up pre post (bad : String) err,
        (∀ i ∈ pre, (mailItemBlock up i).isSome) →
        (∀ i ∈ post, (mailItemBlock up i).isSome) →
        up.fetchEmail bad = .error err →
        (mailParts up (pre ++ bad :: post)).length = pre.length + post.length) ∧
    (∀ up fl clk channels, JObj.get (slackSuccessOut up fl clk channels) "error" = none) ∧
    (∀ up docs sq s e, JObj.get (gdocsSuccessOut up docs sq s e) "error" = none) ∧
    (∀ up ids s e, JObj.get (mailSuccessOut up ids s e) "error" = none) := by
  refine ⟨?_, ?_, ?_, ?_, ?_, ?_, ?_⟩
  · intro up fl cn pre post bad uid err hpre hpost hsub huser huid herr
    have hbad : slackMsgBlock up fl cn bad = none := by
      simp only [slackMsgBlock, if_neg hsub, huser, if_neg huid, herr]
    rw [List.filterMap_append, List.filterMap_cons, hbad, List.length_append,
        length_filterMap_of_isSome _ pre hpre, length_filterMap_of_isSome _ post hpost]
  · intro up docs
    rw [gdocsParts, List.length_map]
  · intro up doc err h
    simp only [formatDoc, h]
  · intro up pre post bad err hpre hpost herr
    have hbad : mailItemBlock up bad = none := by
      simp only [mailItemBlock, herr]
    rw [mailParts, List.filterMap_append, List.filterMap_cons, hbad, List.length_append,
        length_filterMap_of_isSome _ pre hpre, length_filterMap_of_isSome _ post hpost]
  · intro up fl clk channels
    rfl
  · intro up docs sq s e
    rfl
  · intro up ids s e
    rfl

/-- Slack upstream whose profile lookup fails only for user id U_bad. -/
def slackUpOneBadUser : SlackUpstream :=
  ⟨.ok "reportbot", fun c => .ok c, fun _ _ _ => .ok [],
   fun u => if u = "U_bad" then .error "user_not_found" else .ok ⟨"Alice", "Alice Doe"⟩⟩

/-- A plain user message with a resolvable author. -/
def goodMsg : SlackMsg := ⟨none, some "U_good", "2030-06-02 10:00", "hello", 0⟩

/-- A plain user message whose author profile lookup fails. -/
def badMsg : SlackMsg := ⟨none, some "U_bad", "2030-06-02 11:00", "world", 0⟩

/-- Documents upstream whose content fetch fails only for document d1. -/
def gdocsUpOneBad : GdocsUpstream :=
  ⟨fun _ => .ok (), fun _ => .ok [],
   fun i => if i = "d1" then .error "HttpError 403" else .ok "some content"⟩

/-- A document whose content-preview fetch will fail. -/
def testDoc : DocMeta :=
  ⟨"d1", some "Doc One", some "https://docs/d1", some "2030-06-02T00:00:00",
   some "2030-06-03T00:00:00", [some "Owner"], none⟩

/-- Witness for C5: a Chat channel with two messages where one author
lookup fails yields one block; a document whose content fetch fails keeps
its base block; a Mail listing of two ids with one failed fetch yields one
block. -/
theorem claim_C5_witness :
    (([goodMsg] ++ badMsg :: []).filterMap
        (slackMsgBlock slackUpOneBadUser [] "general")).length = 1 + 0 ∧
    formatDoc gdocsUpOneBad testDoc = gdocsBase testDoc ∧
    (mailParts mailUpTwoOneBad ([] ++ "m1" :: ["m2"])).length = 0 + 1 :=
  ⟨claim_C5.1 slackUpOneBadUser [] "general" [goodMsg] [] badMsg "U_bad" "user_not_found"
      (by decide) (by decide) (by decide) rfl (by decide) rfl,
   claim_C5.2.2.1 gdocsUpOneBad testDoc "HttpError 403" rfl,
   claim_C5.2.2.2.1 mailUpTwoOneBad [] ["m2"] "m1" "HttpError 404"
      (by decide) (by decide) rfl⟩

/-- C6: for the Chat collector, when the author allow-list is non-empty,
every message accumulated into `raw_text` has a resolved profile whose
lower-cased display name or real name contains at least one allow-list
entry as a substring (entries are lower-cased at parse time, making the
match case-insensitive); when the allow-list is empty, every fetched
message that is not a bot/system-subtype message and whose author id is
present and resolvable is accumulated. -/
theorem claim_C6 :
    (∀ up fl cn (msg : SlackMsg) b, fl ≠ [] →
        slackMsgBlock up fl cn msg = some b →
        ∃ uid prof, msg.user = some uid ∧ up.userInfo uid = .ok prof ∧
          ∃ g ∈ fl, strContains (pyLower prof.displayName) g = true ∨
                    strContains (pyLower prof.realName) g = true) ∧
    (∀ up cn (msg : SlackMsg) uid prof,
        ¬ (msg.subtype = some "bot_message" ∨ msg.subtype = some "channel_join" ∨
           msg.subtype = some "channel_leave") →
        msg.user = some uid → uid ≠ "" → up.userInfo uid = .ok prof →
        slackMsgBlock up [] cn msg = some (slackFormatMsg cn prof msg)) := by
  constructor
  · intro up fl cn msg b hfl h
    simp only [slackMsgBlock] at h
    split at h
    · exact absurd h (by simp)
    · rename_i hsub
      split at h
      · exact absurd h (by simp)
      · rename_i uid huser
        split at h
        · exact absurd h (by simp)
        · rename_i huid
          split at h
          · exact absurd h (by simp)
          · rename_i prof hprof
            split at h
            · exact absurd h (by simp)
            · rename_i hcond
              refine ⟨uid, prof, huser, hprof, ?_⟩
              have hmatch : userMatch fl prof = true := by
                by_contra hm
                exact hcond ⟨hfl, hm⟩
              rcases List.any_eq_true.mp hmatch with ⟨g, hg, hok⟩
              exact ⟨g, hg, by simpa using hok⟩
  · intro up cn msg uid prof hsub huser huid hprof
    simp only [slackMsgBlock, if_neg hsub, huser, if_neg huid, hprof]
    simp

/-- Witness for C6: with allow-list ["alice"], the accumulated message
from author Alice has a matching resolved profile; with an empty
allow-list, the same plain message is accumulated. -/
theorem claim_C6_witness :
    (∃ uid prof, goodMsg.user = some uid ∧ slackUpOneBadUser.userInfo uid = .ok prof ∧
        ∃ g ∈ ["alice"], strContains (pyLower prof.displayName) g = true ∨
                         strContains (pyLower prof.realName) g = true) ∧
    slackMsgBlock slackUpOneBadUser [] "general" goodMsg =
      some (slackFormatMsg "general" ⟨"Alice", "Alice Doe"⟩ goodMsg) :=
  ⟨claim_C6.1 slackUpOneBadUser ["alice"] "general" goodMsg
      (slackFormatMsg "general" ⟨"Alice", "Alice Doe"⟩ goodMsg) (by decide) (by decide),
   claim_C6.2 slackUpOneBadUser "general" goodMsg "U_good" ⟨"Alice", "Alice Doe"⟩
      (by decide) rfl (by decide) rfl⟩

/-- IssueTracker upstream returning zero issues. -/
def jiraUpEmpty : JiraUpstream := ⟨fun _ _ _ => .ok []⟩

/-- Counterexample to C7 as stated: an IssueTracker run that succeeds with
zero issues writes `raw_text = ""` — the empty string, not a non-empty
placeholder (the spec's own zero-issue scenario agrees with the code
here). -/
theorem counterexample_C7 :
    (jiraMain ["2024-01-01", "2024-01-07"] (some "tok") none jiraUpEmpty testClock).written =
      some (jiraSuccessOut [] "RHDPOPS" "2024-01-01" "2024-01-07") ∧
    JObj.get (jiraSuccessOut [] "RHDPOPS" "2024-01-01" "2024-01-07") "raw_text" =
      some (.jstr "") ∧
    (jiraMain ["2024-01-01", "2024-01-07"] (some "tok") none jiraUpEmpty testClock).exitCode = 0 :=
  ⟨rfl, rfl, rfl⟩

/-- C7 (amended): only the Chat collector writes a non-empty placeholder
("No relevant Slack messages found") on a successful run with zero
accumulated items; Mail, Documents, and IssueTracker write the empty
string as `raw_text` when zero items are retrieved. -/
theorem claim_C7 :
    (∀ up fl clk channels, slackAllBlocks up fl clk channels = [] →
        JObj.get (slackSuccessOut up fl clk channels) "raw_text" =
          some (.jstr "No relevant Slack messages found")) ∧
    (∀ up s e, JObj.get (mailSuccessOut up [] s e) "raw_text" = some (.jstr "")) ∧
    (∀ up sq s e, JObj.get (gdocsSuccessOut up [] sq s e) "raw_text" = some (.jstr "")) ∧
    (∀ p s e, JObj.get (jiraSuccessOut [] p s e) "raw_text" = some (.jstr "")) := by
  refine ⟨?_, ?_, ?_, ?_⟩
  · intro up fl clk channels h
    simp only [slackSuccessOut, h]
    rfl
  · intro up s e
    rfl
  · intro up sq s e
    rfl
  · intro p s e
    rfl

/-- Witness for C7: a Chat run over one channel with an empty history
writes the placeholder raw_text. -/
theorem claim_C7_witness :
    JObj.get (slackSuccessOut slackUpOneBadUser [] testClock ["C1"]) "raw_text" =
      some (.jstr "No relevant Slack messages found") :=
  claim_C7.1 slackUpOneBadUser [] testClock ["C1"] rfl

/-- Counterexample to C8 as stated: the Chat collector's no-channels path
writes a non-error output (`error` absent) that has no `message_count`
field at all — only `channel_count: 0`. -/
theorem counterexample_C8 :
    (slackMain [] (some "t") slackUpOneBadUser testClock).written = some slackNoChannelsOut ∧
    (slackMain [] (some "t") slackUpOneBadUser testClock).exitCode = 0 ∧
    JObj.get slackNoChannelsOut "error" = none ∧
    JObj.get slackNoChannelsOut "message_count" = none ∧
    JObj.get slackNoChannelsOut "channel_count" = some (.jint 0) :=
  ⟨rfl, rfl, rfl, rfl, rfl⟩

/-- C8 (amended): every success-path CollectionResult carries its
collector-specific item-count field with a non-negative value (the length
of a list, 0 when nothing was found) — except the Chat collector's
no-channels path, which writes `channel_count: 0` but omits
`message_count` entirely. -/
theorem claim_C8 :
    (∀ up ids s e, JObj.get (mailSuccessOut up ids s e) "email_count" =
        some (.jint ids.length) ∧ 0 ≤ (ids.length : Int)) ∧
    (∀ up docs sq s e, JObj.get (gdocsSuccessOut up docs sq s e) "doc_count" =
        some (.jint docs.length) ∧ 0 ≤ (docs.length : Int)) ∧
    (∀ issues p s e, JObj.get (jiraSuccessOut issues p s e) "issue_count" =
        some (.jint issues.length) ∧ 0 ≤ (issues.length : Int)) ∧
    (∀ up fl clk channels, JObj.get (slackSuccessOut up fl clk channels) "message_count" =
        some (.jint (slackAllBlocks up fl clk channels).length) ∧
        0 ≤ ((slackAllBlocks up fl clk channels).length : Int)) ∧
    (JObj.get slackNoChannelsOut "channel_count" = some (.jint 0) ∧
     JObj.get slackNoChannelsOut "message_count" = none) := by
  refine ⟨?_, ?_, ?_, ?_, rfl, rfl⟩ <;> intros <;>
    exact ⟨rfl, Int.natCast_nonneg _⟩

/-- Counterexample to C9 as stated: handing the Chat collector a start
date as positional argument 1 and an end date as argument 2, with the
channel list at argument 5, makes it treat the start date as the channel
list (one channel named "2024-01-01", so `channel_count = 1` rather than 2
from "C1,C2") and ignore both dates: the output `date_range` carries the
clock-derived window, not the arguments. -/
theorem counterexample_C9 :
    (slackMain ["2024-01-01", "2024-01-31", "out.json", "logs", "C1,C2"] (some "t")
        slackUpOneBadUser testClock).written =
      some (slackSuccessOut slackUpOneBadUser (slackUserFilter "2024-01-31") testClock
        ["2024-01-01"]) ∧
    JObj.get (slackSuccessOut slackUpOneBadUser (slackUserFilter "2024-01-31") testClock
        ["2024-01-01"]) "channel_count" = some (.jint 1) ∧
    JObj.get (slackSuccessOut slackUpOneBadUser (slackUserFilter "2024-01-31") testClock
        ["2024-01-01"]) "date_range" =
      some (.jobj [("start", .pstr "2030-06-01T12:00:00"),
                   ("end", .pstr "2030-06-08T12:00:00")]) :=
  ⟨rfl, rfl, rfl⟩

/-- C9 (amended): Mail, Documents, and IssueTracker take the start date as
positional argument 1 and the end date as argument 2, with the
source-specific extra selector at argument 5 (Documents search term,
IssueTracker project — its member list is argument 6); the Chat collector
instead takes the channel-id list as argument 1 and the author filter as
argument 2, accepts no date arguments, and derives its window from the
clock. -/
theorem claim_C9 :
    (∀ argv t up clk ids,
        up.tokenParse t = .ok () →
        up.listMessages (mailQuery (argOpt argv 0) (argOpt argv 1)) = .ok ids →
        (mailMain argv (some t) up clk).written =
          some (mailSuccessOut up ids (argOpt argv 0) (argOpt argv 1))) ∧
    (∀ argv c up clk docs,
        up.credsParse c = .ok () →
        up.listFiles (gdocsQuery (argD argv 4 "cog") (argOpt argv 0) (argOpt argv 1)) =
          .ok docs →
        (gdocsMain argv (some c) up clk).written =
          some (gdocsSuccessOut up docs (argD argv 4 "cog") (argOpt argv 0) (argOpt argv 1))) ∧
    (∀ argv t base up clk issues,
        up.searchIssues (base.getD "https://issues.redhat.com") t
          (jiraJql (argD argv 4 "RHDPOPS") (argD argv 0 clk.weekAgo) (argD argv 1 clk.today)
            (jiraTeamFilter (argD argv 5 ""))) = .ok issues →
        (jiraMain argv (some t) base up clk).written =
          some (jiraSuccessOut issues (argD argv 4 "RHDPOPS") (argD argv 0 clk.weekAgo)
            (argD argv 1 clk.today))) ∧
    (∀ argv t up clk b,
        up.authTest = .ok b →
        slackChannels (argD argv 0 "") ≠ [] →
        (slackMain argv (some t) up clk).written =
          some (slackSuccessOut up (slackUserFilter (argD argv 1 "")) clk
            (slackChannels (argD argv 0 "")))) := by
  refine ⟨?_, ?_, ?_, ?_⟩
  · intro argv t up clk ids h1 h2
    simp only [mailMain, h1, h2]
  · intro argv c up clk docs h1 h2
    simp only [gdocsMain, h1, h2]
  · intro argv t base up clk issues h
    simp only [jiraMain, h]
  · intro argv t up clk b h1 h2
    simp only [slackMain, h1, if_neg h2]

/-- Witness for C9: concrete runs of all four collectors land on the
success outputs predicted from their argument positions. -/
theorem claim_C9_witness :
    (mailMain ["2024-01-01", "2024-01-07"] (some "T") mailUpTwoOneBad testClock).written =
      some (mailSuccessOut mailUpTwoOneBad ["m1", "m2"] (some "2024-01-01")
        (some "2024-01-07")) ∧
    (gdocsMain ["2024-01-01", "2024-01-07"] (some "C") gdocsUpOneBad testClock).written =
      some (gdocsSuccessOut gdocsUpOneBad [] "cog" (some "2024-01-01") (some "2024-01-07")) ∧
    (jiraMain ["2024-01-01", "2024-01-07"] (some "tok") none jiraUpEmpty testClock).written =
      some (jiraSuccessOut [] "RHDPOPS" "2024-01-01" "2024-01-07") ∧
    (slackMain ["C1", "alice"] (some "t") slackUpOneBadUser testClock).written =
      some (slackSuccessOut slackUpOneBadUser (slackUserFilter "alice") testClock
        (slackChannels "C1")) :=
  ⟨claim_C9.1 ["2024-01-01", "2024-01-07"] "T" mailUpTwoOneBad testClock ["m1", "m2"] rfl rfl,
   claim_C9.2.1 ["2024-01-01", "2024-01-07"] "C" gdocsUpOneBad testClock [] rfl rfl,
   claim_C9.2.2.1 ["2024-01-01", "2024-01-07"] "tok" none jiraUpEmpty testClock [] rfl,
   claim_C9.2.2.2 ["C1", "alice"] "t" slackUpOneBadUser testClock "reportbot" rfl
     (by decide)⟩

/-- Counterexample to C10 as stated: two Chat runs with identical
arguments, identical environment, and identical upstream responses, made
at different times, write different bytes — the output's `date_range` is
derived from the invocation clock. -/
theorem counterexample_C10 :
    (slackMain ["C1"] (some "t") slackUpOneBadUser testClock).written ≠
      (slackMain ["C1"] (some "t") slackUpOneBadUser testClock2).written := by
  decide

/-- C10 (amended): the written output of Mail and Documents is a
deterministic function of arguments, environment, and upstream responses
alone (clock-independent); IssueTracker's is too once both date arguments
are supplied (absent dates default to clock-derived values); the Chat
collector's output always embeds the clock-derived date range, so its
bytes vary with the invocation time. -/
theorem claim_C10 :
    (∀ argv tok up c1 c2, mailMain argv tok up c1 = mailMain argv tok up c2) ∧
    (∀ argv creds up c1 c2, gdocsMain argv creds up c1 = gdocsMain argv creds up c2) ∧
    (∀ argv tok base up c1 c2 s e, argOpt argv 0 = some s → argOpt argv 1 = some e →
        jiraMain argv tok base up c1 = jiraMain argv tok base up c2) ∧
    (∀ up fl clk channels,
        JObj.get (slackSuccessOut up fl clk channels) "date_range" =
          some (.jobj [("start", .pstr clk.startIso), ("end", .pstr clk.endIso)])) := by
  refine ⟨fun _ _ _ _ _ => rfl, fun _ _ _ _ _ => rfl, ?_, fun _ _ _ _ => rfl⟩
  intro argv tok base up c1 c2 s e h1 h2
  simp only [jiraMain, argD, argOpt] at h1 h2 ⊢
  rw [h1, h2]
  simp

/-- Witness for C10: an IssueTracker run with both dates supplied is
unchanged across two different invocation clocks. -/
theorem claim_C10_witness :
    jiraMain ["2024-01-01", "2024-01-07"] (some "tok") none jiraUpEmpty testClock =
      jiraMain ["2024-01-01", "2024-01-07"] (some "tok") none jiraUpEmpty testClock2 :=
  claim_C10.2.2.1 ["2024-01-01", "2024-01-07"] (some "tok") none jiraUpEmpty testClock
    testClock2 "2024-01-01" "2024-01-07" rfl rfl

end OpsReports
